import Mathlib

/-!
Shallow embedding of the Digitool ground-risk-buffer service
(`src/grb.py` and `src/app.py`).

Python floats are modelled as real numbers; Python exceptions as an
`Except` error type; Python dict/GeoJSON values as Lean structures with
`Option` fields where the Python value can be `None`/absent.  Shapely and
pyproj geometry operations are opaque to the claims, so geometries are
modelled as a free term algebra over the input features: `unary_union`,
CRS transforms and `buffer` are constructors applied to their arguments.
-/

namespace Digitool

open Real

/-- Python exceptions that the embedded code can raise. -/
inductive PyError where
  | attributeError
  | keyError (msg : String)
  | httpException (code : Nat) (msg : String)
deriving DecidableEq, Repr

/-- Opaque geometry values: input features and the shapely / pyproj
operations applied to them. -/
inductive Geom where
  | input (i : Nat)
  | union (gs : List Geom)
  | project (targetCrs : String) (g : Geom)
  | buffer (g : Geom) (distance : ℝ)

/-- A Leaflet style dict as used in `app.py` (absent keys are `none`). -/
structure Style where
  color : String
  weight : ℕ
  opacity : ℝ
  dashArray : Option String
  fillColor : Option String
  fillOpacity : ℝ

/-- A GeoJSON feature as produced by `feature_or_none` / `add_name`:
buffered geometry plus the style and (optional) name properties. -/
structure Feature where
  geometry : Geom
  style : Style
  name : Option String

/-- The result of `fc(...)`: a FeatureCollection. -/
structure FeatureCollection where
  features : List Feature

/-- The `layers` dict of the response: exactly five fixed keys.  Each
value is `Option FeatureCollection` so that a Python `None`/null value is
representable (`none`) and distinguishable from an empty collection. -/
structure Layers where
  ca : Option FeatureCollection
  grb : Option FeatureCollection
  assemblies_horizon : Option FeatureCollection
  adjacent_area : Option FeatureCollection
  detection_area : Option FeatureCollection

/-- The request parameters (`Params` pydantic model in `app.py`).
The pydantic validators require `roc`, `rod`, `wind` strictly positive;
those constraints live at the transport boundary and appear as
hypotheses of the theorems that need them. -/
structure Params where
  hfg : ℝ
  opType : String
  aircraftType : String
  prsEquipped : Bool
  cd : ℝ
  v0 : ℝ
  roc : ℝ
  rod : ℝ
  wind : ℝ

/-- The `meta` part of the response. -/
structure Meta where
  scv_m : ℝ
  hcv_m : ℝ
  grb_m : ℝ
  ah_m : ℝ
  sd_m : ℝ
  hd_m : Option ℝ
  aa_m : ℝ
  inputs : Params

/-- The full `/api/grb/run` response body. -/
structure RunResponse where
  meta : Meta
  layers : Layers

noncomputable section

/-! ## grb.py -/

/-- One row of the `CONST` table. -/
structure Consts where
  trt : ℝ
  g : ℝ
  sgps : ℝ
  spos : ℝ
  smap : ℝ
  roh_rotorcraft : ℝ
  roh_fixedwing : ℝ
  tdlt : ℝ
  Vtr : ℝ
  RODtr : ℝ
  hbaro : ℝ

/-- The `"3.3.0"` row of `CONST` in `grb.py`. -/
def const330 : Consts :=
  { trt := 1.00, g := 9.81, sgps := 3.00, spos := 3.00, smap := 1.00,
    hbaro := 4.00, roh_rotorcraft := 45.00, roh_fixedwing := 30.00,
    tdlt := 15.00, Vtr := 25.00, RODtr := 3.00 }

/-- The `CONST` dict: version string to constants row. -/
def CONST (version : String) : Option Consts :=
  if version = "3.3.0" then some const330 else none

def CURRENT_VERSION : String := "3.3.0"

def AIRCRAFTTYPS : List String := ["rotorcraft", "fixedwing"]

/-- `torad(value)` from `grb.py`. -/
def torad (value : ℝ) : ℝ := value * Real.pi / 180.0

/-- Configuration state of a constructed `GroundRiskBufferCalc`. -/
structure GroundRiskBufferCalc where
  version : String
  const : Consts
  aircrafttype : String
  prs_enabled : Bool

namespace GroundRiskBufferCalc

/-- `GroundRiskBufferCalc.__init__`.  Faithful to the source: the
attribute `self.version` is assigned only inside `if version ==
"current"`, so for any other `version` argument (including the literal
key `"3.3.0"`) the subsequent read `CONST[self.version]` raises
`AttributeError`; an unknown aircraft type raises `KeyError`. -/
def init (version aircrafttype : String) (prs_enabled : Bool) :
    Except PyError GroundRiskBufferCalc :=
  if version = "current" then
    match CONST CURRENT_VERSION with
    | some c =>
      if aircrafttype ∈ AIRCRAFTTYPS then
        Except.ok { version := CURRENT_VERSION, const := c,
                    aircrafttype := aircrafttype, prs_enabled := prs_enabled }
      else
        Except.error (PyError.keyError ("Aircrafttype " ++ aircrafttype ++ " not in list"))
    | none => Except.error (PyError.keyError CURRENT_VERSION)
  else
    Except.error PyError.attributeError

variable (self : GroundRiskBufferCalc)

/-- `get_srt(v0)`. -/
def get_srt (v0 : ℝ) : ℝ := self.const.trt * v0

/-- `get_scm(v0)`. -/
def get_scm (v0 : ℝ) : ℝ :=
  if self.aircrafttype = "rotorcraft" then
    0.5 * (v0 ^ 2 / (self.const.g * Real.tan (torad self.const.roh_rotorcraft)))
  else
    v0 ^ 2 / (self.const.g * Real.tan (torad self.const.roh_fixedwing))

/-- `get_hrt(v0, roc)`. -/
def get_hrt (v0 roc : ℝ) : ℝ :=
  if self.aircrafttype = "rotorcraft" then
    roc * self.const.trt
  else
    (Real.sqrt 2 / 2) * v0 * self.const.trt

/-- `get_hcm(v0)`. -/
def get_hcm (v0 : ℝ) : ℝ :=
  if self.aircrafttype = "rotorcraft" then
    0.5 * (v0 ^ 2 / self.const.g)
  else
    0.3 * (v0 ^ 2 / self.const.g)

/-- `get_hcv(v0, hfg, roc)`. -/
def get_hcv (v0 hfg roc : ℝ) : ℝ :=
  hfg + self.const.hbaro + self.get_hrt v0 roc + self.get_hcm v0

/-- `get_scv(v0)`. -/
def get_scv (v0 : ℝ) : ℝ :=
  self.const.sgps + self.const.spos + self.const.smap +
    self.get_srt v0 + self.get_scm v0

/-- `get_sgrb(v0, vw, cd, hfg, roc)`. -/
def get_sgrb (v0 vw cd hfg roc : ℝ) : ℝ :=
  if self.prs_enabled then
    v0 * 2 + vw * (self.get_hcv v0 hfg roc / 5)
  else if self.aircrafttype = "rotorcraft" then
    let sgrb := v0 * Real.sqrt ((2 * self.get_hcv v0 hfg roc) / self.const.g) + 0.5 * cd
    if sgrb > self.get_hcv v0 hfg roc + 0.5 * cd then
      self.get_hcv v0 hfg roc + 0.5 * cd
    else
      sgrb
  else
    self.get_hcv v0 hfg roc + 0.5 * cd

/-- `get_te(rod, hfg)`. -/
def get_te (rod hfg : ℝ) : ℝ :=
  self.const.tdlt + self.const.trt + (hfg - 30) / rod

/-- `get_ddeco(v0, rod, hfg, operationtype, cd)`. -/
def get_ddeco (v0 rod hfg : ℝ) (operationtype : String) (cd : ℝ) : ℝ :=
  if operationtype = "BVLOS" then
    self.get_te rod hfg * (self.const.Vtr + v0)
  else
    let ALOS := if self.aircrafttype = "rotorcraft" then 327 * cd + 20 else 490 * cd + 30
    let teva := self.const.trt + (hfg - 30) / rod
    let deva := (self.const.Vtr + v0) * teva
    let DLOS := deva + ALOS
    if DLOS / 0.3 > 5000 then 5000 else DLOS / 0.3

/-- `get_hdeco(roc, rod, hfg)`. -/
def get_hdeco (roc rod hfg : ℝ) : ℝ :=
  (self.const.RODtr + roc) * self.get_te rod hfg

/-- `get_adjacent_area(v0)` (independent of the configuration). -/
def get_adjacent_area (_self : GroundRiskBufferCalc) (v0 : ℝ) : ℝ :=
  let aasize := v0 * 180
  max 5000 (min aasize 35000)

end GroundRiskBufferCalc

/-! ## app.py -/

/-- `buf(distance_m)` from `run` in `app.py`: `None` for a non-positive
distance, otherwise the buffered LV95 geometry reprojected to WGS84. -/
def buf (base_lv95 : Geom) (distance_m : ℝ) : Option Geom :=
  if distance_m ≤ 0 then none
  else some (Geom.project "EPSG:4326" (Geom.buffer base_lv95 distance_m))

/-- `feature_or_none(distance_m, style)` from `app.py`. -/
def feature_or_none (base_lv95 : Geom) (distance_m : ℝ) (style : Style) :
    Option Feature :=
  (buf base_lv95 distance_m).map fun g =>
    { geometry := g, style := style, name := none }

/-- `fc(*features)` from `app.py`: always a FeatureCollection, with the
`None` entries filtered out. -/
def fc (features : List (Option Feature)) : FeatureCollection :=
  { features := features.filterMap id }

/-- `add_name(fc_obj, name)` from `app.py` (the argument is always a
FeatureCollection dict here, so the `isinstance` guard never fires). -/
def add_name (fc_obj : FeatureCollection) (name : String) : FeatureCollection :=
  { features := fc_obj.features.map fun f => { f with name := some name } }

def style_ca : Style :=
  { color := "#000000", weight := 1, opacity := 1, dashArray := none,
    fillColor := some "#DDB027", fillOpacity := 0.5 }

def style_grb : Style :=
  { color := "#000000", weight := 1, opacity := 1, dashArray := none,
    fillColor := some "#DD3927", fillOpacity := 0.5 }

def style_ah : Style :=
  { color := "#0000FF", weight := 3, opacity := 1, dashArray := some "4,6",
    fillColor := none, fillOpacity := 0 }

def style_sd : Style :=
  { color := "#00009B", weight := 3, opacity := 1, dashArray := some "4,6",
    fillColor := none, fillOpacity := 0 }

def style_aa : Style :=
  { color := "#FF0000", weight := 3, opacity := 1, dashArray := some "2,6",
    fillColor := none, fillOpacity := 0 }

/-- One entry of the `layers` dict: `add_name(fc(feature_or_none(d, style)), name)`. -/
def mkLayer (base_lv95 : Geom) (distance_m : ℝ) (style : Style) (name : String) :
    Option FeatureCollection :=
  some (add_name (fc [feature_or_none base_lv95 distance_m style]) name)

/-- The projected base geometry `base_lv95` built by `run` from the input
feature geometries. -/
def baseOf (fg_features : List Geom) : Geom :=
  Geom.project "EPSG:2056" (Geom.union fg_features)

/-- `run(req)` from `app.py`, for a request whose `fg` FeatureCollection
holds the geometries `fg_features`.  The constructor runs first, then the
distances are computed, then the empty-features check fires (before any
union / reprojection / buffering on the geometry), then the layers are
assembled.  The dead first call `get_ddeco(p.v0, p.rod, p.cd, p.hfg,
p.wind)` on line 64 of `app.py` is immediately overwritten on line 66 and
has no effect, so only the live assignment is modelled. -/
def run (fg_features : List Geom) (p : Params) : Except PyError RunResponse :=
  match GroundRiskBufferCalc.init "current" p.aircraftType p.prsEquipped with
  | Except.error e => Except.error e
  | Except.ok grb =>
    let scv_m := grb.get_scv p.v0
    let hcv_m := grb.get_hcv p.v0 p.hfg p.roc
    let grb_m := grb.get_sgrb p.v0 p.wind p.cd p.hfg p.roc
    let sd_m := grb.get_ddeco p.v0 p.rod p.hfg p.opType p.cd
    let aa_m := grb.get_adjacent_area p.v0
    let hd_m := if p.opType = "BVLOS" then some (grb.get_hdeco p.roc p.rod p.hfg) else none
    let ah_m : ℝ := 1000.0
    if fg_features.isEmpty then
      Except.error (PyError.httpException 400 "No features found in FG GeoJSON.")
    else
      let base_lv95 := baseOf fg_features
      Except.ok
        { meta := { scv_m := scv_m, hcv_m := hcv_m, grb_m := grb_m, ah_m := ah_m,
                    sd_m := sd_m, hd_m := hd_m, aa_m := aa_m, inputs := p },
          layers :=
            { ca := mkLayer base_lv95 scv_m style_ca "Scv (Containment Area)",
              grb := mkLayer base_lv95 (grb_m + scv_m) style_grb "Grb (Ground Risk Buffer)",
              assemblies_horizon := mkLayer base_lv95 (ah_m + scv_m) style_ah "Assemblies Horizon",
              adjacent_area := mkLayer base_lv95 (aa_m + grb_m) style_aa "Adjacent Area",
              detection_area := mkLayer base_lv95 (sd_m + scv_m) style_sd "Detection Area" } }

/-- The calculator that `run` constructs for parameters `p` (when the
aircraft type is recognised). -/
def mkCalc (p : Params) : GroundRiskBufferCalc :=
  { version := CURRENT_VERSION, const := const330,
    aircrafttype := p.aircraftType, prs_enabled := p.prsEquipped }

/-- The response `run` returns for a non-empty feature list and a
recognised aircraft type. -/
def mkResponse (fg_features : List Geom) (p : Params) : RunResponse :=
  let grb := mkCalc p
  let scv_m := grb.get_scv p.v0
  let grb_m := grb.get_sgrb p.v0 p.wind p.cd p.hfg p.roc
  let sd_m := grb.get_ddeco p.v0 p.rod p.hfg p.opType p.cd
  let aa_m := grb.get_adjacent_area p.v0
  let base_lv95 := baseOf fg_features
  { meta := { scv_m := scv_m, hcv_m := grb.get_hcv p.v0 p.hfg p.roc, grb_m := grb_m,
              ah_m := 1000.0, sd_m := sd_m,
              hd_m := if p.opType = "BVLOS" then some (grb.get_hdeco p.roc p.rod p.hfg) else none,
              aa_m := aa_m, inputs := p },
    layers :=
      { ca := mkLayer base_lv95 scv_m style_ca "Scv (Containment Area)",
        grb := mkLayer base_lv95 (grb_m + scv_m) style_grb "Grb (Ground Risk Buffer)",
        assemblies_horizon := mkLayer base_lv95 (1000.0 + scv_m) style_ah "Assemblies Horizon",
        adjacent_area := mkLayer base_lv95 (aa_m + grb_m) style_aa "Adjacent Area",
        detection_area := mkLayer base_lv95 (sd_m + scv_m) style_sd "Detection Area" } }

/-- The `"3.3.0"` rotorcraft calculator without PRS (what
`GroundRiskBufferCalc(aircrafttype="rotorcraft", prs_enabled=False)`
builds). -/
def calc_rotor : GroundRiskBufferCalc :=
  { version := "3.3.0", const := const330, aircrafttype := "rotorcraft",
    prs_enabled := false }

/-- The `"3.3.0"` rotorcraft calculator with PRS enabled. -/
def calc_rotor_prs : GroundRiskBufferCalc :=
  { version := "3.3.0", const := const330, aircrafttype := "rotorcraft",
    prs_enabled := true }

/-- The `"3.3.0"` fixed-wing calculator without PRS. -/
def calc_fixed : GroundRiskBufferCalc :=
  { version := "3.3.0", const := const330, aircrafttype := "fixedwing",
    prs_enabled := false }

/-- What a well-formed layer entry looks like: always a
FeatureCollection (never null); empty exactly when the radius is
non-positive, otherwise a single feature carrying the buffered geometry,
the layer style and the layer name. -/
def LayerSpec (base_lv95 : Geom) (v : Option FeatureCollection) (d : ℝ)
    (style : Style) (nm : String) : Prop :=
  ∃ k : FeatureCollection, v = some k ∧
    (d ≤ 0 → k.features = []) ∧
    (0 < d →
      k.features =
        [{ geometry := Geom.project "EPSG:4326" (Geom.buffer base_lv95 d),
           style := style, name := some nm }])

/-- Example request geometry: a single drawn feature. -/
def fgEx : List Geom := [Geom.input 0]

/-- Example request parameters (VLOS rotorcraft, no PRS), satisfying the
transport-layer validation (`roc`, `rod`, `wind` > 0). -/
def pEx : Params :=
  { hfg := 120, opType := "VLOS", aircraftType := "rotorcraft",
    prsEquipped := false, cd := 1.2, v0 := 15, roc := 3, rod := 3, wind := 5 }

/-- Request parameters exercising a non-positive detection-area radius:
`ddeco = ((25+0)*(1+(0-30)/1)+20)/0.3 = -2350`, `scv = 7`. -/
def pNeg : Params :=
  { hfg := 0, opType := "VLOS", aircraftType := "rotorcraft",
    prsEquipped := false, cd := 0, v0 := 0, roc := 1, rod := 1, wind := 1 }

end

/-! ## Helper lemmas -/

noncomputable section

/-- Python's `if a > b: return b; else: return a` pattern is `min`. -/
lemma ite_gt_eq_min (a b : ℝ) : (if a > b then b else a) = min a b := by
  rcases le_or_lt a b with h | h
  · rw [if_neg (not_lt.mpr h), min_eq_left h]
  · rw [if_pos h, min_eq_right h.le]

/-- The constructor succeeds with `version="current"` and a recognised
aircraft type, yielding exactly `mkCalc p`. -/
lemma init_current_eq_ok (p : Params) (h : p.aircraftType ∈ AIRCRAFTTYPS) :
    GroundRiskBufferCalc.init "current" p.aircraftType p.prsEquipped =
      Except.ok (mkCalc p) := by
  simp [GroundRiskBufferCalc.init, CONST, CURRENT_VERSION, h, mkCalc]

/-- `run` on a non-empty feature list with a recognised aircraft type
returns `mkResponse`. -/
lemma run_eq_ok (fg_features : List Geom) (p : Params)
    (h1 : fg_features ≠ []) (h2 : p.aircraftType ∈ AIRCRAFTTYPS) :
    run fg_features p = Except.ok (mkResponse fg_features p) := by
  have he : fg_features.isEmpty = false := by
    cases fg_features with
    | nil => exact absurd rfl h1
    | cons a t => rfl
  rw [run, init_current_eq_ok p h2]
  simp only [he, Bool.false_eq_true, if_false]
  rfl

/-- A layer entry with non-positive distance is an empty
FeatureCollection (not `none`). -/
lemma mkLayer_nonpos (b : Geom) (d : ℝ) (s : Style) (nm : String) (h : d ≤ 0) :
    mkLayer b d s nm = some { features := [] } := by
  simp [mkLayer, fc, feature_or_none, buf, h, add_name]

/-- A layer entry with positive distance holds the single buffered,
styled, named feature. -/
lemma mkLayer_pos (b : Geom) (d : ℝ) (s : Style) (nm : String) (h : 0 < d) :
    mkLayer b d s nm =
      some { features :=
        [{ geometry := Geom.project "EPSG:4326" (Geom.buffer b d),
           style := s, name := some nm }] } := by
  simp [mkLayer, fc, feature_or_none, buf, not_le.mpr h, add_name]

/-- Every `mkLayer` entry satisfies `LayerSpec`. -/
lemma layerSpec_mkLayer (b : Geom) (d : ℝ) (s : Style) (nm : String) :
    LayerSpec b (mkLayer b d s nm) d s nm := by
  rcases le_or_lt d 0 with h | h
  · exact ⟨{ features := [] }, mkLayer_nonpos b d s nm h, fun _ => rfl,
      fun hp => absurd hp (not_lt.mpr h)⟩
  · refine ⟨_, mkLayer_pos b d s nm h, fun hle => absurd hle (not_le.mpr h),
      fun _ => rfl⟩

/-- Any operation-type string other than `"BVLOS"` takes the same
(`VLOS`) branch of `get_ddeco` as the literal `"VLOS"`. -/
lemma ddeco_not_bvlos (c : GroundRiskBufferCalc) (v0 rod hfg cd : ℝ)
    (op : String) (h : op ≠ "BVLOS") :
    c.get_ddeco v0 rod hfg op cd = c.get_ddeco v0 rod hfg "VLOS" cd := by
  simp only [GroundRiskBufferCalc.get_ddeco, h,
    (by decide : ("VLOS" : String) ≠ "BVLOS"), if_false, if_neg]

/-- `torad(45) = π/4`, so the rotorcraft bank-angle tangent is 1. -/
lemma tan_torad_45 : Real.tan (torad 45) = 1 := by
  have h : torad 45 = Real.pi / 4 := by
    unfold torad
    rw [show (180.0 : ℝ) = 180 by norm_num]
    ring
  rw [h, Real.tan_pi_div_four]

/-- `Scv(15)` for the rotorcraft calculator, exactly. -/
lemma scv_15 : calc_rotor.get_scv 15 = 3648 / 109 := by
  norm_num [GroundRiskBufferCalc.get_scv, GroundRiskBufferCalc.get_srt,
    GroundRiskBufferCalc.get_scm, calc_rotor, const330, tan_torad_45]

/-- `Hcv(15, 120, 3)` for the rotorcraft calculator, exactly. -/
lemma hcv_15 : calc_rotor.get_hcv 15 120 3 = 15093 / 109 := by
  norm_num [GroundRiskBufferCalc.get_hcv, GroundRiskBufferCalc.get_hrt,
    GroundRiskBufferCalc.get_hcm, calc_rotor, const330]

/-- Upper bound on `√(2·Hcv/g)` at the example input. -/
lemma sqrtX_lt : Real.sqrt (335400 / 11881) < 5.3132 :=
  (Real.sqrt_lt' (by norm_num)).mpr (by norm_num)

/-- Lower bound on `√(2·Hcv/g)` at the example input. -/
lemma sqrtX_gt : (5.31318 : ℝ) < Real.sqrt (335400 / 11881) :=
  (Real.lt_sqrt (by norm_num)).mpr (by norm_num)

/-- `Sgrb(15, 5, 1.2, 120, 3)` for the rotorcraft calculator in closed
form: the rotorcraft candidate is below the `Hcv + 0.5·cd` cap. -/
lemma sgrb_15_eq :
    calc_rotor.get_sgrb 15 5 1.2 120 3 =
      15 * Real.sqrt (335400 / 11881) + 0.6 := by
  have hprs : calc_rotor.prs_enabled = false := rfl
  have hac : calc_rotor.aircrafttype = "rotorcraft" := rfl
  simp only [GroundRiskBufferCalc.get_sgrb, hprs, hac, Bool.false_eq_true,
    if_false, if_true, eq_self_iff_true]
  rw [hcv_15, show calc_rotor.const.g = 9.81 from rfl,
    show (2 * ((15093 : ℝ) / 109)) / 9.81 = 335400 / 11881 by norm_num]
  have hnb : ¬(15 * Real.sqrt (335400 / 11881) + 0.5 * 1.2 >
      (15093 : ℝ) / 109 + 0.5 * 1.2) := by
    have := sqrtX_lt
    push_neg
    nlinarith
  rw [if_neg hnb]
  norm_num

/-! ## Claim theorems -/

/-- C2: the claim expects any version string present in the constants
table (in particular `"3.3.0"`) to be accepted at construction.  The
code only assigns `self.version` when the argument is the sentinel
`"current"`, so passing the known key `"3.3.0"` raises `AttributeError`
even though the `CONST` table has that row; only `"current"` succeeds.
This contradicts the versioned-table intent, hence a code bug. -/
theorem grb_c2_version_construction :
    GroundRiskBufferCalc.init "3.3.0" "rotorcraft" false =
      Except.error PyError.attributeError ∧
    (CONST "3.3.0").isSome = true ∧
    GroundRiskBufferCalc.init "current" "rotorcraft" false =
      Except.ok calc_rotor := by
  refine ⟨?_, ?_, ?_⟩
  · simp [GroundRiskBufferCalc.init]
  · simp [CONST]
  · simp [GroundRiskBufferCalc.init, CONST, CURRENT_VERSION, AIRCRAFTTYPS, calc_rotor]

/-- C3 counterexample: at rotorcraft, no PRS, `hfg=120, cd=1.2, v0=15,
roc=3, rod=3, wind=5` the code returns `Sgrb ≈ 80.30`, not `≈ 89.73`
(the claim's own `min` formula evaluates to 80.30), `Hcv = 138.4679`
rounds to 138.47, not 138.48, and the `grb` layer radius `Sgrb + Scv ≈
113.77`, not `≈ 123.2`. -/
theorem grb_c3_counterexample :
    calc_rotor.get_sgrb 15 5 1.2 120 3 < 89 ∧
    0.005 < |calc_rotor.get_hcv 15 120 3 - 138.48| ∧
    calc_rotor.get_sgrb 15 5 1.2 120 3 + calc_rotor.get_scv 15 < 114 := by
  refine ⟨?_, ?_, ?_⟩
  · rw [sgrb_15_eq]
    have := sqrtX_lt
    nlinarith
  · rw [hcv_15, abs_of_neg (by norm_num : (15093 : ℝ) / 109 - 138.48 < 0)]
    norm_num
  · rw [sgrb_15_eq, scv_15]
    have := sqrtX_lt
    nlinarith

/-- C3 (amended): at the example input the calculator returns
`Scv ≈ 33.47`, `Hcv ≈ 138.47`, `Sgrb ≈ 80.30`, and the derived `grb`
layer radius `Sgrb + Scv ≈ 113.77` (all to within `0.005`). -/
theorem grb_c3_example_values :
    |calc_rotor.get_scv 15 - 33.47| < 0.005 ∧
    |calc_rotor.get_hcv 15 120 3 - 138.47| < 0.005 ∧
    |calc_rotor.get_sgrb 15 5 1.2 120 3 - 80.30| < 0.005 ∧
    |calc_rotor.get_sgrb 15 5 1.2 120 3 + calc_rotor.get_scv 15 - 113.77| < 0.005 := by
  refine ⟨?_, ?_, ?_, ?_⟩
  · rw [scv_15, abs_lt]
    constructor <;> norm_num
  · rw [hcv_15, abs_lt]
    constructor <;> norm_num
  · rw [sgrb_15_eq, abs_lt]
    have h1 := sqrtX_lt
    have h2 := sqrtX_gt
    constructor <;> nlinarith
  · rw [sgrb_15_eq, scv_15, abs_lt]
    have h1 := sqrtX_lt
    have h2 := sqrtX_gt
    constructor <;> nlinarith

/-- C4: `get_sgrb` has exactly three branches in priority order: PRS
first (`2·v0 + wind·(Hcv/5)`), then rotorcraft
(`min(v0·√(2·Hcv/g) + 0.5·cd, Hcv + 0.5·cd)`), then fixed-wing
(`Hcv + 0.5·cd`). -/
theorem grb_c4_sgrb_branches (c : GroundRiskBufferCalc) (v0 vw cd hfg roc : ℝ) :
    (c.prs_enabled = true →
      c.get_sgrb v0 vw cd hfg roc =
        2 * v0 + vw * (c.get_hcv v0 hfg roc / 5)) ∧
    (c.prs_enabled = false → c.aircrafttype = "rotorcraft" →
      c.get_sgrb v0 vw cd hfg roc =
        min (v0 * Real.sqrt (2 * c.get_hcv v0 hfg roc / c.const.g) + 0.5 * cd)
            (c.get_hcv v0 hfg roc + 0.5 * cd)) ∧
    (c.prs_enabled = false → c.aircrafttype ≠ "rotorcraft" →
      c.get_sgrb v0 vw cd hfg roc = c.get_hcv v0 hfg roc + 0.5 * cd) := by
  refine ⟨fun hp => ?_, fun hp hr => ?_, fun hp hr => ?_⟩
  · simp only [GroundRiskBufferCalc.get_sgrb, hp, if_true]
    ring
  · simp only [GroundRiskBufferCalc.get_sgrb, hp, hr, if_true,
      Bool.false_eq_true, if_false]
    exact ite_gt_eq_min _ _
  · simp only [GroundRiskBufferCalc.get_sgrb, hp, hr, Bool.false_eq_true,
      if_false]

/-- C4 witness: the three branches evaluated on concrete calculators. -/
theorem grb_c4_sgrb_branches_witness :
    calc_rotor_prs.get_sgrb 1 1 1 1 1 =
      2 * 1 + 1 * (calc_rotor_prs.get_hcv 1 1 1 / 5) ∧
    calc_rotor.get_sgrb 1 1 1 1 1 =
      min (1 * Real.sqrt (2 * calc_rotor.get_hcv 1 1 1 / calc_rotor.const.g) + 0.5 * 1)
          (calc_rotor.get_hcv 1 1 1 + 0.5 * 1) ∧
    calc_fixed.get_sgrb 1 1 1 1 1 = calc_fixed.get_hcv 1 1 1 + 0.5 * 1 :=
  ⟨(grb_c4_sgrb_branches calc_rotor_prs 1 1 1 1 1).1 rfl,
   (grb_c4_sgrb_branches calc_rotor 1 1 1 1 1).2.1 rfl rfl,
   (grb_c4_sgrb_branches calc_fixed 1 1 1 1 1).2.2 rfl (by decide)⟩

/-- C6: the VLOS branch of `get_ddeco` is
`min(((Vtr+v0)·(trt+(hfg−30)/rod) + ALOS)/0.3, 5000)` with the
class-specific `ALOS`, and is therefore capped at 5000 m. -/
theorem grb_c6_ddeco_vlos (c : GroundRiskBufferCalc) (v0 rod hfg cd : ℝ)
    (_h : 0 < rod) :
    c.get_ddeco v0 rod hfg "VLOS" cd =
      min (((c.const.Vtr + v0) * (c.const.trt + (hfg - 30) / rod) +
        (if c.aircrafttype = "rotorcraft" then 327 * cd + 20 else 490 * cd + 30)) / 0.3)
        5000 ∧
    c.get_ddeco v0 rod hfg "VLOS" cd ≤ 5000 := by
  have hb : ("VLOS" : String) ≠ "BVLOS" := by decide
  have hmain :
      c.get_ddeco v0 rod hfg "VLOS" cd =
        min (((c.const.Vtr + v0) * (c.const.trt + (hfg - 30) / rod) +
          (if c.aircrafttype = "rotorcraft" then 327 * cd + 20 else 490 * cd + 30)) / 0.3)
          5000 := by
    simp only [GroundRiskBufferCalc.get_ddeco, hb, if_false]
    rw [← ite_gt_eq_min]
  exact ⟨hmain, hmain ▸ min_le_right _ _⟩

/-- C6 witness: the VLOS branch at a concrete input with `rod > 0`. -/
theorem grb_c6_ddeco_vlos_witness :
    calc_rotor.get_ddeco 1 1 1 "VLOS" 1 =
      min (((calc_rotor.const.Vtr + 1) * (calc_rotor.const.trt + (1 - 30) / 1) +
        (if calc_rotor.aircrafttype = "rotorcraft" then 327 * 1 + 20 else 490 * 1 + 30)) / 0.3)
        5000 ∧
    calc_rotor.get_ddeco 1 1 1 "VLOS" 1 ≤ 5000 :=
  grb_c6_ddeco_vlos calc_rotor 1 1 1 1 (by norm_num)

/-- C7: `get_te` is exactly `tdlt + trt + (hfg − 30)/rod` (with the
version-3.3.0 constants, `15 + 1 + (hfg − 30)/rod`) with no lower clamp,
and at the valid input `rod = 1 > 0`, `hfg = 0 < 30` the returned time
window is negative. -/
theorem grb_c7_te_uncapped :
    (∀ rod hfg : ℝ, 0 < rod →
      calc_rotor.get_te rod hfg = 15 + 1 + (hfg - 30) / rod) ∧
    calc_rotor.get_te 1 0 < 0 ∧ (0 : ℝ) < 1 ∧ (0 : ℝ) < 30 := by
  refine ⟨fun rod hfg _ => ?_, ?_, by norm_num, by norm_num⟩
  · simp only [GroundRiskBufferCalc.get_te, calc_rotor, const330]
    norm_num
  · simp only [GroundRiskBufferCalc.get_te, calc_rotor, const330]
    norm_num

/-- C7 witness: the formula evaluated at `rod = 2 > 0`, `hfg = 50`. -/
theorem grb_c7_te_uncapped_witness :
    calc_rotor.get_te 2 50 = 15 + 1 + (50 - 30) / 2 :=
  grb_c7_te_uncapped.1 2 50 (by norm_num)

/-- C9: `get_adjacent_area` is the clamp of `v0·180` to
`[5000, 35000]`, always lies in that interval, and is monotonically
non-decreasing in `v0`. -/
theorem grb_c9_adjacent_area (c : GroundRiskBufferCalc) :
    (∀ v0 : ℝ, c.get_adjacent_area v0 = max 5000 (min (v0 * 180) 35000)) ∧
    (∀ v0 : ℝ, 5000 ≤ c.get_adjacent_area v0 ∧ c.get_adjacent_area v0 ≤ 35000) ∧
    (∀ a b : ℝ, a ≤ b → c.get_adjacent_area a ≤ c.get_adjacent_area b) := by
  refine ⟨fun v0 => rfl, fun v0 => ⟨le_max_left _ _, ?_⟩, fun a b h => ?_⟩
  · exact max_le (by norm_num) (min_le_right _ _)
  · exact max_le_max le_rfl
      (min_le_min (mul_le_mul_of_nonneg_right h (by norm_num)) le_rfl)

/-- C9 witness: monotonicity instantiated at `1 ≤ 2`. -/
theorem grb_c9_adjacent_area_witness :
    calc_rotor.get_adjacent_area 1 ≤ calc_rotor.get_adjacent_area 2 :=
  (grb_c9_adjacent_area calc_rotor).2.2 1 2 (by norm_num)

/-- C8: a request whose geometry payload has zero features fails with
the 400 "No features" error; in the embedding the union / reprojection /
buffering constructors are only ever applied in the non-empty branch, so
the failure occurs before any geometry work. -/
theorem app_c8_empty_geometry (p : Params) (h : p.aircraftType ∈ AIRCRAFTTYPS) :
    run [] p =
      Except.error (PyError.httpException 400 "No features found in FG GeoJSON.") := by
  rw [run, init_current_eq_ok p h]
  rfl

/-- C8 witness: the empty request with the example parameters. -/
theorem app_c8_empty_geometry_witness :
    run [] pEx =
      Except.error (PyError.httpException 400 "No features found in FG GeoJSON.") :=
  app_c8_empty_geometry pEx (by decide)

/-- C5: the five layer radii are exactly `Scv`, `Sgrb + Scv`,
`1000 + Scv`, `adjacentArea + Sgrb` and `Ddeco + Scv` as computed by the
calculator that `run` constructs. -/
theorem app_c5_layer_radii (fg_features : List Geom) (p : Params)
    (h1 : fg_features ≠ []) (h2 : p.aircraftType ∈ AIRCRAFTTYPS) :
    ∃ r : RunResponse, run fg_features p = Except.ok r ∧
      r.layers.ca =
        mkLayer (baseOf fg_features) ((mkCalc p).get_scv p.v0)
          style_ca "Scv (Containment Area)" ∧
      r.layers.grb =
        mkLayer (baseOf fg_features)
          ((mkCalc p).get_sgrb p.v0 p.wind p.cd p.hfg p.roc + (mkCalc p).get_scv p.v0)
          style_grb "Grb (Ground Risk Buffer)" ∧
      r.layers.assemblies_horizon =
        mkLayer (baseOf fg_features) (1000 + (mkCalc p).get_scv p.v0)
          style_ah "Assemblies Horizon" ∧
      r.layers.adjacent_area =
        mkLayer (baseOf fg_features)
          ((mkCalc p).get_adjacent_area p.v0 +
            (mkCalc p).get_sgrb p.v0 p.wind p.cd p.hfg p.roc)
          style_aa "Adjacent Area" ∧
      r.layers.detection_area =
        mkLayer (baseOf fg_features)
          ((mkCalc p).get_ddeco p.v0 p.rod p.hfg p.opType p.cd +
            (mkCalc p).get_scv p.v0)
          style_sd "Detection Area" := by
  refine ⟨mkResponse fg_features p, run_eq_ok fg_features p h1 h2,
    rfl, rfl, ?_, rfl, rfl⟩
  have h1000 : (1000.0 : ℝ) = 1000 := by norm_num
  show mkLayer (baseOf fg_features) (1000.0 + (mkCalc p).get_scv p.v0)
      style_ah "Assemblies Horizon" =
    mkLayer (baseOf fg_features) (1000 + (mkCalc p).get_scv p.v0)
      style_ah "Assemblies Horizon"
  rw [h1000]

/-- C5 witness: the layer radii at the example request. -/
theorem app_c5_layer_radii_witness :
    ∃ r : RunResponse, run fgEx pEx = Except.ok r ∧
      r.layers.ca =
        mkLayer (baseOf fgEx) ((mkCalc pEx).get_scv pEx.v0)
          style_ca "Scv (Containment Area)" ∧
      r.layers.grb =
        mkLayer (baseOf fgEx)
          ((mkCalc pEx).get_sgrb pEx.v0 pEx.wind pEx.cd pEx.hfg pEx.roc +
            (mkCalc pEx).get_scv pEx.v0)
          style_grb "Grb (Ground Risk Buffer)" ∧
      r.layers.assemblies_horizon =
        mkLayer (baseOf fgEx) (1000 + (mkCalc pEx).get_scv pEx.v0)
          style_ah "Assemblies Horizon" ∧
      r.layers.adjacent_area =
        mkLayer (baseOf fgEx)
          ((mkCalc pEx).get_adjacent_area pEx.v0 +
            (mkCalc pEx).get_sgrb pEx.v0 pEx.wind pEx.cd pEx.hfg pEx.roc)
          style_aa "Adjacent Area" ∧
      r.layers.detection_area =
        mkLayer (baseOf fgEx)
          ((mkCalc pEx).get_ddeco pEx.v0 pEx.rod pEx.hfg pEx.opType pEx.cd +
            (mkCalc pEx).get_scv pEx.v0)
          style_sd "Detection Area" :=
  app_c5_layer_radii fgEx pEx (by simp [fgEx]) (by decide)

/-- C10: the operation-type string is never validated; the request
succeeds for any `opType`, `hd_m` is present iff `opType` is exactly
`"BVLOS"`, and for any other string `Ddeco` is computed by the VLOS
branch and `hd_m` is null. -/
theorem app_c10_optype (fg_features : List Geom) (p : Params)
    (h1 : fg_features ≠ []) (h2 : p.aircraftType ∈ AIRCRAFTTYPS) :
    ∃ r : RunResponse, run fg_features p = Except.ok r ∧
      (r.meta.hd_m.isSome = true ↔ p.opType = "BVLOS") ∧
      (p.opType ≠ "BVLOS" →
        r.meta.hd_m = none ∧
        r.meta.sd_m = (mkCalc p).get_ddeco p.v0 p.rod p.hfg "VLOS" p.cd) := by
  refine ⟨mkResponse fg_features p, run_eq_ok fg_features p h1 h2, ?_, ?_⟩
  · by_cases hb : p.opType = "BVLOS" <;> simp [mkResponse, hb]
  · intro hne
    constructor
    · simp [mkResponse, hne]
    · show (mkCalc p).get_ddeco p.v0 p.rod p.hfg p.opType p.cd =
        (mkCalc p).get_ddeco p.v0 p.rod p.hfg "VLOS" p.cd
      exact ddeco_not_bvlos (mkCalc p) p.v0 p.rod p.hfg p.cd p.opType hne

/-- C1 counterexample: at the request `pNeg` the detection-area radius
`sd_m + scv_m = -2343 ≤ 0`, yet the `detection_area` key maps to an
empty FeatureCollection, not to an absent/null value as claimed. -/
theorem app_c1_counterexample :
    (run fgEx pNeg).map (fun r => (r.meta.sd_m + r.meta.scv_m, r.layers.detection_area)) =
      Except.ok ((-2343 : ℝ), some ({ features := [] } : FeatureCollection)) ∧
    (-2343 : ℝ) ≤ 0 ∧
    some ({ features := [] } : FeatureCollection) ≠ none := by
  have hsum : (mkCalc pNeg).get_ddeco pNeg.v0 pNeg.rod pNeg.hfg pNeg.opType pNeg.cd +
      (mkCalc pNeg).get_scv pNeg.v0 = -2343 := by
    simp only [GroundRiskBufferCalc.get_ddeco, GroundRiskBufferCalc.get_scv,
      GroundRiskBufferCalc.get_srt, GroundRiskBufferCalc.get_scm,
      mkCalc, pNeg, const330]
    rw [if_neg (by decide : ¬("VLOS" : String) = "BVLOS")]
    norm_num
  refine ⟨?_, by norm_num, by simp⟩
  rw [run_eq_ok fgEx pNeg (by simp [fgEx]) (by decide)]
  show Except.ok ((mkCalc pNeg).get_ddeco pNeg.v0 pNeg.rod pNeg.hfg pNeg.opType pNeg.cd +
      (mkCalc pNeg).get_scv pNeg.v0,
      mkLayer (baseOf fgEx)
        ((mkCalc pNeg).get_ddeco pNeg.v0 pNeg.rod pNeg.hfg pNeg.opType pNeg.cd +
          (mkCalc pNeg).get_scv pNeg.v0) style_sd "Detection Area") =
    Except.ok ((-2343 : ℝ), some ({ features := [] } : FeatureCollection))
  rw [hsum, mkLayer_nonpos _ _ _ _ (by norm_num : (-2343 : ℝ) ≤ 0)]

/-- C1 (amended): every request yields all five fixed keys; each key
always maps to a FeatureCollection (never null); a layer with radius
`≤ 0` maps to an empty FeatureCollection, and a layer with radius `> 0`
maps to a collection with the single named, styled buffered feature. -/
theorem app_c1_amended (fg_features : List Geom) (p : Params)
    (h1 : fg_features ≠ []) (h2 : p.aircraftType ∈ AIRCRAFTTYPS) :
    ∃ r : RunResponse, run fg_features p = Except.ok r ∧
      LayerSpec (baseOf fg_features) r.layers.ca r.meta.scv_m
        style_ca "Scv (Containment Area)" ∧
      LayerSpec (baseOf fg_features) r.layers.grb (r.meta.grb_m + r.meta.scv_m)
        style_grb "Grb (Ground Risk Buffer)" ∧
      LayerSpec (baseOf fg_features) r.layers.assemblies_horizon
        (r.meta.ah_m + r.meta.scv_m) style_ah "Assemblies Horizon" ∧
      LayerSpec (baseOf fg_features) r.layers.adjacent_area
        (r.meta.aa_m + r.meta.grb_m) style_aa "Adjacent Area" ∧
      LayerSpec (baseOf fg_features) r.layers.detection_area
        (r.meta.sd_m + r.meta.scv_m) style_sd "Detection Area" :=
  ⟨mkResponse fg_features p, run_eq_ok fg_features p h1 h2,
    layerSpec_mkLayer _ _ _ _, layerSpec_mkLayer _ _ _ _,
    layerSpec_mkLayer _ _ _ _, layerSpec_mkLayer _ _ _ _,
    layerSpec_mkLayer _ _ _ _⟩

/-- C1 (amended) witness: the example request. -/
theorem app_c1_amended_witness :
    ∃ r : RunResponse, run fgEx pEx = Except.ok r ∧
      LayerSpec (baseOf fgEx) r.layers.ca r.meta.scv_m
        style_ca "Scv (Containment Area)" ∧
      LayerSpec (baseOf fgEx) r.layers.grb (r.meta.grb_m + r.meta.scv_m)
        style_grb "Grb (Ground Risk Buffer)" ∧
      LayerSpec (baseOf fgEx) r.layers.assemblies_horizon
        (r.meta.ah_m + r.meta.scv_m) style_ah "Assemblies Horizon" ∧
      LayerSpec (baseOf fgEx) r.layers.adjacent_area
        (r.meta.aa_m + r.meta.grb_m) style_aa "Adjacent Area" ∧
      LayerSpec (baseOf fgEx) r.layers.detection_area
        (r.meta.sd_m + r.meta.scv_m) style_sd "Detection Area" :=
  app_c1_amended fgEx pEx (by simp [fgEx]) (by decide)

/-- C10 witness: the example request has `opType = "VLOS"`. -/
theorem app_c10_optype_witness :
    ∃ r : RunResponse, run fgEx pEx = Except.ok r ∧
      (r.meta.hd_m.isSome = true ↔ pEx.opType = "BVLOS") ∧
      (pEx.opType ≠ "BVLOS" →
        r.meta.hd_m = none ∧
        r.meta.sd_m = (mkCalc pEx).get_ddeco pEx.v0 pEx.rod pEx.hfg "VLOS" pEx.cd) :=
  app_c10_optype fgEx pEx (by simp [fgEx]) (by decide)

end

end Digitool
